/-
Verification development for conky's Wayland display utilities:
colour-depth handling, gradient generation, colour-name parsing,
shared-memory pool allocation and font-metric fallbacks, shallowly
embedded from the C++ source.

Real-valued arithmetic in the source (double and float expressions) is
modelled by exact arithmetic: each decimal constant is kept as an exact
fraction, and the C truncating cast static_cast of a non-negative
quotient n / d plus one half is computed exactly as the integer
division (2 n + d) / (2 d). For the 8-bit channel values 0..255 and the
small channel differences involved here, the truncated results of the
actual double / float computations coincide with these exact values
(the decimal constants of the source differ from 31/255 and 63/255 by
about 4e-16, which is several orders of magnitude larger than the
rounding error of the corresponding double products, so every
truncation falls on the same side). Machine integers are modelled by
Nat and Int; all values stay far below any word size. External
collaborators (the X display query, the platform colour database, the
Wayland protocol handles) are abstracted as parameters or dropped when
they cannot influence the verified values.
-/
import Mathlib

namespace conky

/-- Process-wide colour state of the colour engine: the colour depth and
the three channel masks the initialization routine derives from it. -/
structure GlobalState where
  colour_depth : Int
  redmask : Nat
  greenmask : Nat
  bluemask : Nat
deriving DecidableEq, Repr

/-- The mask-building loop of the initialization routine: for i from
k - 1 down to 0, OR in bit i, yielding the k low bits set. -/
def or_bits : Nat → Nat
  | 0 => 0
  | k + 1 => or_bits k ||| (1 <<< k)

/-- Translation of the gradient set-up routine. The display query is
abstracted as a parameter: some planes when an X display answers with
its bit-plane count, none in the Wayland configuration, in which case
the depth defaults to 16. The three masks are then derived from the
depth exactly as in the source (shared low-bit block, an extra green
bit when the depth leaves remainder 1 modulo 3, then the red and green
blocks shifted into place). -/
def set_up_gradient (x11_planes : Option Int) : GlobalState :=
  let colour_depth : Int :=
    match x11_planes with
    | some planes => planes
    | none => 16
  let k : Nat := (colour_depth / 3).toNat
  let base : Nat := or_bits k
  let greenbase : Nat := if colour_depth % 3 = 1 then base ||| (1 <<< k) else base
  ⟨colour_depth,
   base <<< (2 * colour_depth / 3 + colour_depth % 3).toNat,
   greenbase <<< k,
   base⟩

/-- Numerator of the source constant 0.12156862745098 (a decimal
truncation of 31/255) over the denominator 10^14. -/
def CONST_8_TO_5_NUM : Nat := 12156862745098

/-- Denominator of the source constant 0.12156862745098. -/
def CONST_8_TO_5_DEN : Nat := 100000000000000

/-- Numerator of the source constant 0.247058823529412 (a decimal
truncation of 63/255) over the denominator 10^15. -/
def CONST_8_TO_6_NUM : Nat := 247058823529412

/-- Denominator of the source constant 0.247058823529412. -/
def CONST_8_TO_6_DEN : Nat := 1000000000000000

/-- Translation of the colour-depth adjustment: at depth 16 the three
8-bit channels are each scaled by the matching decimal constant,
truncated to int, and repacked as 5/6/5 bits; at any other depth the
colour passes through unchanged. A zero depth triggers the lazy
initialization first. The possibly updated global state is returned
alongside the value. The truncated product static_cast of
channel * constant is the exact integer division below. -/
def adjust_colours (x11_planes : Option Int) (s0 : GlobalState) (colour : Nat) :
    GlobalState × Nat :=
  let s := if s0.colour_depth = 0 then set_up_gradient x11_planes else s0
  if s.colour_depth = 16 then
    let r : Nat := (colour &&& 0xff0000) >>> 16
    let g : Nat := (colour &&& 0xff00) >>> 8
    let b : Nat := colour &&& 0xff
    let packed : Nat := ((r * CONST_8_TO_5_NUM) / CONST_8_TO_5_DEN) <<< 11
    let packed := packed ||| (((g * CONST_8_TO_6_NUM) / CONST_8_TO_6_DEN) <<< 5)
    (s, packed ||| ((b * CONST_8_TO_5_NUM) / CONST_8_TO_5_DEN))
  else (s, colour)

/-- Truncation toward zero of num / den + 1/2 for non-negative operands:
the exact value of the source's pattern of scaling a channel difference
by the interpolation factor and rounding with an added half. -/
def round_half_up (num den : Nat) : Nat := (2 * num + den) / (2 * den)

/-- One channel of one gradient entry, for interpolation factor
i / wm1 (the source's i / (width - 1)): the absolute difference of the
endpoint channels is scaled by the factor and rounded with a half whose
sign matches the direction of the interpolation (the C truncation
toward zero makes the decreasing case the exact negation of the
increasing case), the result is added to the first endpoint's channel,
then clamped below by 0 and above by the blue mask, exactly as in the
loop body of the gradient routine. -/
def gradient_channel (c1 c2 : Int) (bluemask : Nat) (i : Nat) (wm1 : Nat) : Int :=
  let diff : Int := |c1 - c2|
  let c3 : Int :=
    if c2 ≤ c1 then -(round_half_up (i * diff.toNat) wm1 : Nat)
    else (round_half_up (i * diff.toNat) wm1 : Nat)
  let c3 := c3 + c1
  let c3 := if c3 < 0 then 0 else c3
  if c3 > (bluemask : Int) then (bluemask : Int) else c3

/-- Channel extraction as performed at the top of the gradient routine:
mask, then shift by the shift amounts recomputed from the depth. -/
def channels (s : GlobalState) (colour : Nat) : Int × Int × Int :=
  let redshift : Nat := (2 * s.colour_depth / 3 + s.colour_depth % 3).toNat
  let greenshift : Nat := (s.colour_depth / 3).toNat
  (((colour &&& s.redmask) >>> redshift : Nat),
   ((colour &&& s.greenmask) >>> greenshift : Nat),
   (colour &&& s.bluemask : Nat))

/-- Packing of three (already clamped, hence non-negative) channel
values, exactly as the gradient's final OR of shifted components. -/
def pack (s : GlobalState) (r g b : Int) : Nat :=
  let redshift : Nat := (2 * s.colour_depth / 3 + s.colour_depth % 3).toNat
  let greenshift : Nat := (s.colour_depth / 3).toNat
  (r.toNat <<< redshift) ||| (g.toNat <<< greenshift) ||| b.toNat

/-- Packing of an extracted channel triple. -/
def pack3 (s : GlobalState) (c : Int × Int × Int) : Nat := pack s c.1 c.2.1 c.2.2

/-- Translation of the gradient routine. Mirrors the source order: the
shift amounts are computed from the depth at entry, the width is forced
up to at least 2, the output sequence is allocated with that many
entries, a zero depth triggers lazy initialization, the endpoint
channels are extracted with the (possibly freshly initialized) masks,
and every index i is filled by per-channel interpolation with factor
i / (width - 1). The possibly updated global state is returned
alongside the sequence. -/
def do_gradient (x11_planes : Option Int) (s0 : GlobalState) (width : Int)
    (first_colour last_colour : Nat) : GlobalState × List Nat :=
  let redshift : Nat := (2 * s0.colour_depth / 3 + s0.colour_depth % 3).toNat
  let greenshift : Nat := (s0.colour_depth / 3).toNat
  let w : Int := max 2 width
  let s := if s0.colour_depth = 0 then set_up_gradient x11_planes else s0
  let red1 : Int := ((first_colour &&& s.redmask) >>> redshift : Nat)
  let green1 : Int := ((first_colour &&& s.greenmask) >>> greenshift : Nat)
  let blue1 : Int := (first_colour &&& s.bluemask : Nat)
  let red2 : Int := ((last_colour &&& s.redmask) >>> redshift : Nat)
  let green2 : Int := ((last_colour &&& s.greenmask) >>> greenshift : Nat)
  let blue2 : Int := (last_colour &&& s.bluemask : Nat)
  (s, (List.range w.toNat).map fun i =>
    let red3 := gradient_channel red1 red2 s.bluemask i (w - 1).toNat
    let green3 := gradient_channel green1 green2 s.bluemask i (w - 1).toNat
    let blue3 := gradient_channel blue1 blue2 s.bluemask i (w - 1).toNat
    (red3.toNat <<< redshift) ||| (green3.toNat <<< greenshift) ||| blue3.toNat)

/-- Translation of the hex-digit helper: the value of one hex nibble,
or -1 for a character that is not a hex digit. -/
def hex_nibble_value (c : Char) : Int :=
  if '0' ≤ c ∧ c ≤ '9' then (c.toNat : Int) - ('0'.toNat : Int)
  else if 'a' ≤ c ∧ c ≤ 'f' then (c.toNat : Int) - ('a'.toNat : Int) + 10
  else if 'A' ≤ c ∧ c ≤ 'F' then (c.toNat : Int) - ('A'.toNat : Int) + 10
  else -1

/-- The parsing loop of the Wayland colour parser: consume the input two
characters at a time (stopping, like the loop bound i + 1 < len, as soon
as fewer than two characters remain), produce the byte value of each
pair, and fail if any character is not a hex digit. -/
def parse_hex_pairs : List Char → Option (List Nat)
  | c1 :: c2 :: rest =>
    let nib1 := hex_nibble_value c1
    let nib2 := hex_nibble_value c2
    if nib1 < 0 ∨ nib2 < 0 then none
    else
      match parse_hex_pairs rest with
      | some vs => some (((nib1.toNat <<< 4) + nib2.toNat) :: vs)
      | none => none
  | _ => some []

/-- The leading-marker step of the Wayland colour parser: a single
leading # character is skipped before the length check. -/
def strip_marker : List Char → List Char
  | '#' :: rest => rest
  | name => name

/-- Translation of the Wayland branch of the colour-name parser. The
platform colour database is abstracted as the lookup parameter (the
OsLookupColor call). The result pairs the returned colour value with a
flag recording whether the parse-failure warning was logged. A resolved
name yields the database channels packed with an opaque low alpha byte.
Otherwise an optional leading # is stripped; a 6-digit hex string fills
the three high bytes over the initial 0xff alpha byte, an 8-digit hex
string also overwrites the alpha byte, and the bytes are assembled into
the value exactly as the source's little-endian memcpy of the 4-byte
array into the returned integer (whose upper bytes the source never
writes; the model takes them as zero). Anything else logs the warning
and returns the sentinel 0xFF00FF. -/
def get_x11_color (lookup : List Char → Option (Nat × Nat × Nat))
    (name : List Char) : Nat × Bool :=
  match lookup name with
  | some (r, g, b) =>
    (0x000000ff ||| ((r &&& 0xff) <<< 24) ||| ((g &&& 0xff) <<< 16) |||
      ((b &&& 0xff) <<< 8), false)
  | none =>
    let stripped := strip_marker name
    if stripped.length = 6 ∨ stripped.length = 8 then
      match parse_hex_pairs stripped with
      | some [p1, p2, p3] => (p1 * 16777216 + p2 * 65536 + p3 * 256 + 0xff, false)
      | some [p1, p2, p3, p4] => (p1 * 16777216 + p2 * 65536 + p3 * 256 + p4, false)
      | _ => (0xFF00FF, true)
    else (0xFF00FF, true)

/-- The validity condition the Wayland hex path actually enforces: after
stripping the optional marker, the length is 6 or 8 and every character
is a hex digit. -/
def is_valid_hex (name : List Char) : Bool :=
  ((strip_marker name).length == 6 || (strip_marker name).length == 8) &&
    (parse_hex_pairs (strip_marker name)).isSome

/-- The concrete test string ff00ff. -/
def hex_name : List Char := ['f', 'f', '0', '0', 'f', 'f']

/-- The concrete test string #ff00ff. -/
def hash_hex_name : List Char := '#' :: hex_name

/-- The concrete invalid test string zz. -/
def zz_name : List Char := ['z', 'z']

/-- A shared-memory pool: total byte size and bump-allocation cursor,
both size_t values. The protocol handle and the mapped base pointer
carried by the C struct cannot influence the allocation arithmetic and
are omitted. -/
structure shm_pool where
  size : Nat
  used : Nat
deriving DecidableEq, Repr

/-- The modulus of the size_t arithmetic of the pool allocator. -/
def size_t_mod : Nat := 2 ^ 64

/-- Translation of the pool bump allocator. The exhaustion check adds
the cursor and the requested size in size_t arithmetic, so the sum
wraps modulo 2^64 exactly as in the source: an allocation whose
(wrapped) sum exceeds the pool size fails, returning no offset and
leaving the pool untouched; otherwise the returned offset is the old
cursor and the cursor becomes the (wrapped) sum. -/
def shm_pool_allocate (pool : shm_pool) (size : Nat) : Option Nat × shm_pool :=
  if (pool.used + size) % size_t_mod > pool.size then (none, pool)
  else (some pool.used, shm_pool.mk pool.size ((pool.used + size) % size_t_mod))

/-- A loaded font entry: the scaled ascent and descent metrics and the
alpha value. The backend font-description handle is omitted; it cannot
influence the metric queries. -/
structure pango_font where
  ascent : Nat
  descent : Nat
  font_alpha : Int
deriving DecidableEq, Repr

/-- Translation of the font-height query: the fallback constant 2 when
no fonts are loaded, otherwise the assertion that the index is in range
(modelled as the none result on violation) guards the sum of the
indexed entry's ascent and descent. -/
def font_height (pango_fonts : List pango_font) (f : Nat) : Option Nat :=
  if pango_fonts.length = 0 then some 2
  else if h : f < pango_fonts.length then
    some ((pango_fonts.get ⟨f, h⟩).ascent + (pango_fonts.get ⟨f, h⟩).descent)
  else none

/-- Translation of the font-ascent query: fallback constant 1 when no
fonts are loaded, otherwise the in-range assertion guards the indexed
entry's ascent. -/
def font_ascent (pango_fonts : List pango_font) (f : Nat) : Option Nat :=
  if pango_fonts.length = 0 then some 1
  else if h : f < pango_fonts.length then
    some (pango_fonts.get ⟨f, h⟩).ascent
  else none

/-- Translation of the font-descent query: fallback constant 1 when no
fonts are loaded, otherwise the in-range assertion guards the indexed
entry's descent. -/
def font_descent (pango_fonts : List pango_font) (f : Nat) : Option Nat :=
  if pango_fonts.length = 0 then some 1
  else if h : f < pango_fonts.length then
    some (pango_fonts.get ⟨f, h⟩).descent
  else none

/-- Translation of the font release routine: every description handle is
freed and the font table is cleared. -/
def free_fonts (_utf8 : Bool) (_pango_fonts : List pango_font) : List pango_font :=
  []

/-
Helper lemmas.
-/

theorem round_half_up_zero (den : Nat) : round_half_up 0 den = 0 := by
  match den with
  | 0 => rfl
  | d + 1 =>
    unfold round_half_up
    apply Nat.div_eq_of_lt
    omega

theorem round_half_up_full (den d : Nat) (h : 0 < den) :
    round_half_up (den * d) den = d := by
  unfold round_half_up
  have h1 : 2 * (den * d) + den = den * (2 * d + 1) := by ring
  have h2 : 2 * den = den * 2 := by ring
  rw [h1, h2, Nat.mul_div_mul_left _ _ h]
  omega

theorem gradient_channel_at_zero (c1 c2 : Int) (bm wm1 : Nat)
    (h0 : 0 ≤ c1) (hbm : c1 ≤ (bm : Int)) :
    gradient_channel c1 c2 bm 0 wm1 = c1 := by
  simp only [gradient_channel, Nat.zero_mul, round_half_up_zero, Nat.cast_zero,
    neg_zero, ite_self, zero_add]
  rw [if_neg (not_lt.2 h0), if_neg (not_lt.2 hbm)]

theorem gradient_channel_at_full (c1 c2 : Int) (bm wm1 : Nat) (hw : 0 < wm1)
    (h2 : 0 ≤ c2) (hbm : c2 ≤ (bm : Int)) :
    gradient_channel c1 c2 bm wm1 wm1 = c2 := by
  simp only [gradient_channel, round_half_up_full _ _ hw,
    Int.toNat_of_nonneg (abs_nonneg (c1 - c2))]
  by_cases hc : c2 ≤ c1
  · rw [if_pos hc, abs_of_nonneg (sub_nonneg.2 hc)]
    have h3 : -(c1 - c2) + c1 = c2 := by ring
    rw [h3, if_neg (not_lt.2 h2), if_neg (not_lt.2 hbm)]
  · rw [if_neg hc, abs_of_nonpos (sub_nonpos.2 (le_of_not_le hc))]
    have h3 : -(c1 - c2) + c1 = c2 := by ring
    rw [h3, if_neg (not_lt.2 h2), if_neg (not_lt.2 hbm)]

theorem parse_hex_pairs_length : ∀ (cs : List Char) (l : List Nat),
    parse_hex_pairs cs = some l → l.length = cs.length / 2
  | [], l, h => by
    simp only [parse_hex_pairs] at h
    obtain rfl := Option.some.inj h
    simp
  | [c], l, h => by
    simp only [parse_hex_pairs] at h
    obtain rfl := Option.some.inj h
    simp
  | c1 :: c2 :: rest, l, h => by
    simp only [parse_hex_pairs] at h
    split at h
    · exact absurd h (by simp)
    · cases hps : parse_hex_pairs rest with
      | none => rw [hps] at h; exact absurd h (by simp)
      | some vs =>
        rw [hps] at h
        obtain rfl := Option.some.inj h
        have ih := parse_hex_pairs_length rest vs hps
        simp only [List.length_cons, ih]
        omega

/-
Claim theorems.
-/

/-- Claim C4: for every width below 2 (zero and negative included) the
gradient routine substitutes width 2 rather than failing, and therefore
still returns a sequence of exactly 2 entries. -/
theorem do_gradient_min_width (env : Option Int) (s : GlobalState) (width : Int)
    (a b : Nat) (h : width < 2) :
    (do_gradient env s width a b).2.length = 2 := by
  simp only [do_gradient, List.length_map, List.length_range]
  rw [max_eq_left (le_of_lt h)]
  rfl

/-- Witness for claim C4 at width 0. -/
theorem do_gradient_min_width_witness :
    (do_gradient none (set_up_gradient none) 0 291 1110).2.length = 2 :=
  do_gradient_min_width none (set_up_gradient none) 0 291 1110 (by decide)

/-- Counterexample to claim C7 as stated: in a pool of size 10 with 8
bytes used, the request 2^64 - 5 satisfies used + size > pool.size, yet
the size_t sum wraps to 3, the exhaustion check passes, and the
allocation succeeds, corrupting the cursor to 3 instead of failing with
the pool unchanged. -/
theorem shm_pool_allocate_counterexample :
    shm_pool.used ⟨10, 8⟩ + (2 ^ 64 - 5) > shm_pool.size ⟨10, 8⟩ ∧
    shm_pool_allocate ⟨10, 8⟩ (2 ^ 64 - 5) = (some 8, ⟨10, 3⟩) := by decide

/-- Claim C7 as amended: provided the sum of the cursor and the
requested size does not overflow size_t, the pool allocator fails,
leaving the pool state (the used cursor in particular) unchanged,
exactly when the request would exceed the pool size; on success it
returns the old cursor as the offset and advances the cursor by exactly
the requested size. Without that bound the wrapped sum can pass the
check and corrupt the cursor, as the counterexample shows. -/
theorem shm_pool_allocate_spec (pool : shm_pool) (size : Nat)
    (hnw : pool.used + size < 2 ^ 64) :
    (pool.used + size > pool.size → shm_pool_allocate pool size = (none, pool)) ∧
    (pool.used + size ≤ pool.size →
      shm_pool_allocate pool size =
        (some pool.used, shm_pool.mk pool.size (pool.used + size))) := by
  constructor
  · intro h
    simp only [shm_pool_allocate, size_t_mod]
    rw [Nat.mod_eq_of_lt hnw, if_pos h]
  · intro h
    simp only [shm_pool_allocate, size_t_mod]
    rw [Nat.mod_eq_of_lt hnw, if_neg (not_lt.2 h)]

/-- Witness for the amended claim C7: a pool of size 10 with 8 bytes
used rejects a 5-byte request untouched and bump-allocates a 2-byte
request. -/
theorem shm_pool_allocate_spec_witness :
    shm_pool_allocate ⟨10, 8⟩ 5 = (none, ⟨10, 8⟩) ∧
    shm_pool_allocate ⟨10, 8⟩ 2 = (some 8, ⟨10, 10⟩) :=
  ⟨(shm_pool_allocate_spec ⟨10, 8⟩ 5 (by decide)).1 (by decide),
   (shm_pool_allocate_spec ⟨10, 8⟩ 2 (by decide)).2 (by decide)⟩

/-- Claim C8: with the font table empty the metric queries return the
defensive fallback constants 2, 1 and 1 at every index instead of
failing; in particular releasing the fonts and then querying the height
of font 0 returns 2. -/
theorem font_metrics_fallback (fonts fonts2 : List pango_font) (f g : Nat)
    (h : fonts.length = 0) :
    font_height fonts f = some 2 ∧ font_ascent fonts f = some 1 ∧
    font_descent fonts f = some 1 ∧
    font_height (free_fonts true fonts2) g = some 2 := by
  refine ⟨?_, ?_, ?_, ?_⟩ <;>
    simp [font_height, font_ascent, font_descent, free_fonts, h]

/-- Witness for claim C8 on the empty table and on a freed table of one
font. -/
theorem font_metrics_fallback_witness :
    font_height [] 0 = some 2 ∧ font_ascent [] 0 = some 1 ∧
    font_descent [] 0 = some 1 ∧
    font_height (free_fonts true [pango_font.mk 3 2 0]) 0 = some 2 :=
  font_metrics_fallback [] [pango_font.mk 3 2 0] 0 0 rfl

/-- Claim C9: once the colour depth is initialized to any value other
than 16, the colour adjustment returns its argument unchanged (and
leaves the state alone); quantization only happens at depth 16. -/
theorem adjust_colours_identity_off16 (env : Option Int) (s : GlobalState)
    (c : Nat) (h0 : s.colour_depth ≠ 0) (h16 : s.colour_depth ≠ 16) :
    adjust_colours env s c = (s, c) := by
  simp only [adjust_colours, if_neg h0, if_neg h16]

/-- Witness for claim C9 at depth 24. -/
theorem adjust_colours_identity_off16_witness :
    adjust_colours none (set_up_gradient (some 24)) 0x123456 =
      (set_up_gradient (some 24), 0x123456) :=
  adjust_colours_identity_off16 none (set_up_gradient (some 24)) 0x123456
    (by decide) (by decide)

/-- Counterexample to claim C3 as stated: at the (default Wayland)
depth 16, adjusting the already-adjusted white 0xFFFFFF changes the
value again (the 5/6/5-packed result is re-read as an 8-bit-per-channel
colour), so the adjustment is not idempotent. -/
theorem adjust_colours_not_idempotent_at16 :
    (adjust_colours none
      (adjust_colours none (set_up_gradient none) 0xFFFFFF).1
      (adjust_colours none (set_up_gradient none) 0xFFFFFF).2).2 ≠
    (adjust_colours none (set_up_gradient none) 0xFFFFFF).2 := by decide

/-- Claim C3 as amended: with the colour depth initialized (non-zero)
and fixed at any value other than 16 the adjustment is the identity and
hence idempotent; at depth 16 idempotence fails (see the
counterexample), because the quantized 16-bit output is re-interpreted
as an 8-bit-per-channel colour by the second application. -/
theorem adjust_colours_idempotent_off16 (env : Option Int) (s : GlobalState)
    (c : Nat) (h0 : s.colour_depth ≠ 0) (h16 : s.colour_depth ≠ 16) :
    adjust_colours env
      (adjust_colours env s c).1 (adjust_colours env s c).2 =
    adjust_colours env s c := by
  simp only [adjust_colours, if_neg h0, if_neg h16]

/-- Witness for the amended claim C3 at depth 24. -/
theorem adjust_colours_idempotent_off16_witness :
    adjust_colours none
      (adjust_colours none (set_up_gradient (some 24)) 0xABCDEF).1
      (adjust_colours none (set_up_gradient (some 24)) 0xABCDEF).2 =
    adjust_colours none (set_up_gradient (some 24)) 0xABCDEF :=
  adjust_colours_idempotent_off16 none (set_up_gradient (some 24)) 0xABCDEF
    (by decide) (by decide)

/-- Claim C2, the code's actual behaviour at the failing input: at
depth 16 every channel, green included, is clamped to the blue mask 31
rather than to its own channel maximum (63 for green), so the gradient
from 0x07E0 (green 63) to itself returns 0x03E0 (green 31) at every
index instead of preserving 0x07E0. -/
theorem do_gradient_green_clamped_to_bluemask :
    (do_gradient none (set_up_gradient none) 2 0x07E0 0x07E0).2 =
      [0x03E0, 0x03E0] := by decide

/-- Counterexample to claim C1 as stated: at depth 16, with both
endpoints 0x07E0 (green channel 63, above the blue mask 31), the first
element of a width-2 gradient is not the repacking of the first
endpoint's extracted channels: the green channel is clamped to 31. -/
theorem do_gradient_endpoints_counterexample :
    (do_gradient none (set_up_gradient none) 2 0x07E0 0x07E0).2.head? ≠
      some (pack3 (set_up_gradient none)
        (channels (set_up_gradient none) 0x07E0)) := by decide

/-- Claim C1 as amended: for an initialized (non-zero) colour depth,
every width of at least 2 and endpoints all of whose extracted channel
values are at most the blue mask (automatic for red and blue; at depth
16 this additionally requires the green channel not to exceed 31, or it
is clamped, see the counterexample), the gradient has exactly width
entries, its first entry repacks the first endpoint's extracted
channel values and its last entry repacks the last endpoint's. -/
theorem do_gradient_endpoints (env : Option Int) (s : GlobalState) (width : Int)
    (a b : Nat) (hd : s.colour_depth ≠ 0) (hw : 2 ≤ width)
    (ha1 : (channels s a).1 ≤ (s.bluemask : Int))
    (ha2 : (channels s a).2.1 ≤ (s.bluemask : Int))
    (ha3 : (channels s a).2.2 ≤ (s.bluemask : Int))
    (hb1 : (channels s b).1 ≤ (s.bluemask : Int))
    (hb2 : (channels s b).2.1 ≤ (s.bluemask : Int))
    (hb3 : (channels s b).2.2 ≤ (s.bluemask : Int)) :
    (do_gradient env s width a b).2.length = width.toNat ∧
    (do_gradient env s width a b).2.head? = some (pack3 s (channels s a)) ∧
    (do_gradient env s width a b).2.getLast? = some (pack3 s (channels s b)) := by
  have hmax : max 2 width = width := max_eq_right hw
  simp only [channels] at ha1 ha2 ha3 hb1 hb2 hb3
  simp only [do_gradient, if_neg hd, hmax, pack3, pack, channels]
  refine ⟨?_, ?_, ?_⟩
  · simp only [List.length_map, List.length_range]
  · obtain ⟨m, hm⟩ : ∃ m, width.toNat = m + 1 := ⟨width.toNat - 1, by omega⟩
    rw [hm, List.range_succ_eq_map]
    simp only [List.map_cons, List.head?_cons]
    rw [gradient_channel_at_zero _ _ _ _ (Int.natCast_nonneg _) ha1,
        gradient_channel_at_zero _ _ _ _ (Int.natCast_nonneg _) ha2,
        gradient_channel_at_zero _ _ _ _ (Int.natCast_nonneg _) ha3]
  · obtain ⟨m, hm⟩ : ∃ m, width.toNat = m + 1 := ⟨width.toNat - 1, by omega⟩
    have hwm1 : (width - 1).toNat = m := by omega
    have hm1 : 0 < m := by omega
    rw [hm, List.range_succ, List.map_append]
    simp only [List.map_cons, List.map_nil, List.getLast?_concat, hwm1]
    rw [gradient_channel_at_full _ _ _ _ hm1 (Int.natCast_nonneg _) hb1,
        gradient_channel_at_full _ _ _ _ hm1 (Int.natCast_nonneg _) hb2,
        gradient_channel_at_full _ _ _ _ hm1 (Int.natCast_nonneg _) hb3]

/-- Witness for the amended claim C1: a width-2 gradient at depth 16
from black to the blue mask. -/
theorem do_gradient_endpoints_witness :
    (do_gradient none (set_up_gradient none) 2 0 31).2.length = (2 : Int).toNat ∧
    (do_gradient none (set_up_gradient none) 2 0 31).2.head? =
      some (pack3 (set_up_gradient none) (channels (set_up_gradient none) 0)) ∧
    (do_gradient none (set_up_gradient none) 2 0 31).2.getLast? =
      some (pack3 (set_up_gradient none) (channels (set_up_gradient none) 31)) :=
  do_gradient_endpoints none (set_up_gradient none) 2 0 31 (by decide) (by decide)
    (by decide) (by decide) (by decide) (by decide) (by decide) (by decide)

/-- Claim C5: when the platform colour database resolves neither string,
parsing ff00ff and #ff00ff yields the same colour value (the leading
marker is stripped before the hex path runs). -/
theorem get_x11_color_marker_agnostic (lookup : List Char → Option (Nat × Nat × Nat))
    (h1 : lookup hex_name = none) (h2 : lookup hash_hex_name = none) :
    (get_x11_color lookup hex_name).1 = (get_x11_color lookup hash_hex_name).1 := by
  simp only [get_x11_color, h1, h2]
  rfl

/-- Witness for claim C5 with an empty colour database. -/
theorem get_x11_color_marker_agnostic_witness :
    (get_x11_color (fun _ => none) hex_name).1 =
      (get_x11_color (fun _ => none) hash_hex_name).1 :=
  get_x11_color_marker_agnostic (fun _ => none) rfl rfl

/-- Claim C6: an input that the colour database does not resolve and
that is not a valid 6- or 8-digit hex string makes the parser log the
warning and return the sentinel magenta 0xFF00FF instead of propagating
a failure. -/
theorem get_x11_color_invalid_sentinel (lookup : List Char → Option (Nat × Nat × Nat))
    (name : List Char) (h1 : lookup name = none) (h2 : is_valid_hex name = false) :
    get_x11_color lookup name = (0xFF00FF, true) := by
  simp only [get_x11_color, h1]
  by_cases hlen : (strip_marker name).length = 6 ∨ (strip_marker name).length = 8
  · rw [if_pos hlen]
    have hp : parse_hex_pairs (strip_marker name) = none := by
      cases hps : parse_hex_pairs (strip_marker name) with
      | none => rfl
      | some vs =>
        exfalso
        rw [is_valid_hex, hps] at h2
        simp at h2
        rcases hlen with h | h
        · exact h2.1 h
        · exact h2.2 h
    rw [hp]
  · rw [if_neg hlen]

/-- Witness for claim C6 on the string zz. -/
theorem get_x11_color_invalid_sentinel_witness :
    get_x11_color (fun _ => none) zz_name = (0xFF00FF, true) :=
  get_x11_color_invalid_sentinel (fun _ => none) zz_name rfl (by decide)

/-- Claim C10: every 6-hex-digit string taken by the Wayland hex path
(colour database miss, stripped length 6, all digits valid) produces a
colour whose alpha byte, the low byte of the assembled value, is the
fully opaque 0xff; only the 8-digit form can write that byte. -/
theorem get_x11_color_six_digit_opaque (lookup : List Char → Option (Nat × Nat × Nat))
    (name : List Char) (h1 : lookup name = none)
    (h6 : (strip_marker name).length = 6)
    (hp : (parse_hex_pairs (strip_marker name)).isSome = true) :
    (get_x11_color lookup name).1 % 256 = 0xff := by
  obtain ⟨l, hl⟩ := Option.isSome_iff_exists.mp hp
  have hlen : l.length = 3 := by
    have h := parse_hex_pairs_length _ _ hl
    rw [h6] at h
    exact h
  obtain ⟨p1, p2, p3, rfl⟩ : ∃ x y z, l = [x, y, z] := by
    match l, hlen with
    | [x, y, z], _ => exact ⟨x, y, z, rfl⟩
  simp only [get_x11_color, h1, if_pos (Or.inl h6), hl]
  omega

/-- Witness for claim C10 on the string ff00ff. -/
theorem get_x11_color_six_digit_opaque_witness :
    (get_x11_color (fun _ => none) hex_name).1 % 256 = 0xff :=
  get_x11_color_six_digit_opaque (fun _ => none) hex_name rfl (by decide) (by decide)

end conky
